import Mathlib

/-!
Verification of the Fedede financial due-diligence rule engine.

The repository documents its core algorithms (period detection, period
aggregation, variation computation, materiality classification, data
anonymization, question synthesis) in `docs/ALGORITHM.md`,
`docs/SECURITY.md`, `docs/README.md` and `docs/USER_GUIDE.md`; the audit
view logic is in the frontend sources. Monetary values are modelled as
rationals; absent values (NaN in the source) as `Option`.
-/

/-- Embedding of `calculate_variation` from `docs/ALGORITHM.md`
(src/processors/financial_analyzer.py): absolute variation is
`compare - base`; percentage variation is 0 when both are zero, the
sentinel 100 (resp. -100) when the base is zero and the compared value is
positive (resp. negative), and `(compare - base) / |base| * 100`
otherwise. -/
def calculate_variation (base compare : ℚ) : ℚ × ℚ :=
  let var_abs := compare - base
  let var_pct :=
    if base = 0 then
      if compare = 0 then 0
      else if compare > 0 then 100
      else -100
    else (compare - base) / |base| * 100
  (var_abs, var_pct)

/-- Outcome of a variation computation when operands may be NaN/absent. -/
inductive VariationOutcome where
  | notComputable : VariationOutcome
  | computed (var_abs var_pct : ℚ) : VariationOutcome
deriving DecidableEq, Repr

/-- Modelled from the spec: `src/processors/financial_analyzer.py` is not
in the repository; per the spec and the special-cases table of
`docs/ALGORITHM.md` ("NaN | 100 | - | - | No calculable"), a NaN/absent
operand makes the variation not computable instead of raising or
defaulting the operand to zero. Absent/NaN operands are modelled as
`none`. -/
def calculate_variation_checked (base compare : Option ℚ) : VariationOutcome :=
  match base, compare with
  | some b, some c =>
      VariationOutcome.computed (calculate_variation b c).1 (calculate_variation b c).2
  | _, _ => VariationOutcome.notComputable

/-- Materiality thresholds, caller supplied (docs/ALGORITHM.md section 4). -/
structure MaterialityConfig where
  threshold_pct : ℚ
  threshold_abs : ℚ
  min_value : ℚ
deriving DecidableEq, Repr

/-- Documented fallback configuration of `docs/ALGORITHM.md`:
threshold_pct 10, threshold_abs 50000, min_value 100000. -/
def defaultMaterialityConfig : MaterialityConfig := ⟨10, 50000, 100000⟩

/-- One account row paired with the variation of one period pair. -/
structure VariationItem where
  account_code : String
  value_base : ℚ
  value_compare : ℚ
  variation_abs : ℚ
  variation_pct : ℚ
deriving DecidableEq, Repr

/-- Modelled from the spec: `src/processors/financial_analyzer.py` is not
in the repository; `is_material` follows the materiality criteria of
`docs/ALGORITHM.md` section 4 (percentage gate, absolute gate and
minimum-value gate, all three required), with `valor_max` read as
`max |value_base| |value_compare|` per the spec. -/
def is_material (cfg : MaterialityConfig) (it : VariationItem) : Bool :=
  decide (|it.variation_pct| ≥ cfg.threshold_pct) &&
  decide (|it.variation_abs| ≥ cfg.threshold_abs) &&
  decide (max |it.value_base| |it.value_compare| ≥ cfg.min_value)

/-- Materiality evaluation of a possibly not-computable variation: a
not-computable item is excluded (never material). -/
def evaluate_materiality (cfg : MaterialityConfig) (code : String)
    (base compare : Option ℚ) : Bool :=
  match base, compare, calculate_variation_checked base compare with
  | some b, some c, VariationOutcome.computed a p => is_material cfg ⟨code, b, c, a, p⟩
  | _, _, _ => false

/-- Priority levels of a reported item (Alta, Media, Baja). -/
inductive Priority where
  | alta
  | media
  | baja
deriving DecidableEq, Repr

/-- Sign anomaly: an account declared asset-type whose compared balance is
negative (credit-natured), per part_008 ("Validación de Naturaleza de
Signo") and spec section 4.4. -/
def sign_anomaly (is_asset : Bool) (value_compare : ℚ) : Bool :=
  is_asset && decide (value_compare < 0)

/-- New-account or disappeared-account tag: exactly one of the two period
values is zero. -/
def new_or_disappeared (base compare : ℚ) : Bool :=
  (decide (base = 0) && decide (compare ≠ 0)) ||
  (decide (compare = 0) && decide (base ≠ 0))

/-- Modelled from the spec: the priority assignment implementation
(`qa_generator.py` / `rules.py`) is not in the repository; part_008 only
documents the deterministic rules. Per spec section 4.4: Alta when the
percentage variation reaches twice the threshold or a sign anomaly or a
new/disappeared account is detected; Media when it reaches the threshold;
Baja otherwise. -/
def assign_priority (threshold_pct : ℚ) (is_asset : Bool)
    (base compare var_pct : ℚ) : Priority :=
  if 2 * threshold_pct ≤ |var_pct| ∨ sign_anomaly is_asset compare = true ∨
      new_or_disappeared base compare = true then
    Priority.alta
  else if threshold_pct ≤ |var_pct| then Priority.media
  else Priority.baja

/-- Parsed month columns of a year, in input order and with multiplicity:
the `month_columns[year].append(columna)` step of `detect_fiscal_periods`
in `docs/ALGORITHM.md`. A column is a parsed (year, month) pair. -/
def month_columns (cols : List (Nat × Nat)) (y : Nat) : List Nat :=
  (cols.filter (fun c => c.1 == y)).map Prod.snd

/-- Result of the period detection. -/
structure FiscalPeriods where
  fiscal_years : List Nat
  incomplete_years : List Nat
deriving DecidableEq, Repr

/-- Embedding of `detect_fiscal_periods` from `docs/ALGORITHM.md`: a year
whose month-column list has length 12 is complete, any other detected
year is incomplete; complete years are returned sorted. -/
def detect_fiscal_periods (cols : List (Nat × Nat)) : FiscalPeriods :=
  let ys := (cols.map Prod.fst).dedup
  let complete := ys.filter (fun y => (month_columns cols y).length == 12)
  let incomplete := ys.filter (fun y => (month_columns cols y).length != 12)
  ⟨complete.insertionSort (fun a b => a ≤ b), incomplete⟩

/-- FY/YTD aggregation of `aggregate_by_period` in `docs/ALGORITHM.md`
for one row: the sum of the row's values over the year's month columns. -/
def aggregate_year_value (mc : Nat → List Nat) (row : Nat × Nat → ℚ) (y : Nat) : ℚ :=
  ((mc y).map (fun m => row (y, m))).sum

/-- Embedding of the prior-year YTD comparison column of
`aggregate_by_period` in `docs/ALGORITHM.md`: with
`n_months = len(month_columns[year])`, the source takes
`prev_cols = month_columns[year-1][:n_months]` — the FIRST n columns of
the previous year by position — and sums them. -/
def ytd_prev_value (mc : Nat → List Nat) (row : Nat × Nat → ℚ) (y : Nat) : ℚ :=
  (((mc (y - 1)).take (mc y).length).map (fun m => row (y - 1, m))).sum

/-- Formalisation of the claim's wording (spec section 4.2): the derived
prior-year YTD column sums the SAME calendar months, selected by month
index, and is unavailable when the previous year lacks any of those
months. -/
def ytd_prev_value_spec (mc : Nat → List Nat) (row : Nat × Nat → ℚ) (y : Nat) : Option ℚ :=
  if (mc y).all (fun m => (mc (y - 1)).contains m) then
    some (((mc y).map (fun m => row (y - 1, m))).sum)
  else none

/-- Anonymized derivative of an account row and its variation, with the
field layout documented in `docs/SECURITY.md` (which also shows the
retained underscore-prefixed originals) and `docs/README.md`. -/
structure AnonymizedFact where
  category_generic : String
  account_type : String
  variation_direction : String
  variation_magnitude : String
  variation_percentage : ℚ
  value_range : String
  priority_suggested : String
  _original_description : String
  _original_value_base : ℚ
  _original_value_compare : ℚ
  _account_code : String
deriving DecidableEq, Repr

/-- Modelled from the spec: `src/ai/data_anonymizer.py` is not in the
repository; the generic category and account type are derived from the
leading digit of the account code only (docs/README.md maps code
7000012345 to "Cuenta de ingresos" / income). -/
def categorize_account (code : String) : String × String :=
  if code.front = '7' then ("Cuenta de ingresos", "income_revenue")
  else if code.front = '6' then ("Cuenta de gastos", "expense")
  else if code.front = '2' then ("Cuenta de activo", "asset")
  else ("Cuenta contable", "other")

/-- Direction bucket of a variation ("incremento" / "decremento"). -/
def variation_direction_of (pct : ℚ) : String :=
  if 0 < pct then "incremento" else "decremento"

/-- Intensity bucket of a variation per `docs/ALGORITHM.md` section 5:
above 50 significativo, above 20 moderado, otherwise leve. -/
def variation_magnitude_of (pct : ℚ) : String :=
  if 50 < |pct| then "significativo"
  else if 20 < |pct| then "moderado"
  else "leve"

/-- Modelled from the spec: fixed value-range bucket boundaries (the
boundary document DATA_PRIVACY.md is not in the repository); the bucket
depends only on the larger magnitude of the two values. -/
def value_range_of (base compare : ℚ) : String :=
  if 1000000 ≤ max |base| |compare| then "grande"
  else if 100000 ≤ max |base| |compare| then "mediano"
  else "pequeño"

/-- Suggested priority bucket derived from the percentage variation. -/
def priority_suggested_of (pct : ℚ) : String :=
  if 50 < |pct| then "alta"
  else if 20 < |pct| then "media"
  else "baja"

/-- Modelled from the spec: `DataAnonymizer.anonymize`
(src/ai/data_anonymizer.py) is not in the repository; the public fields
are computed from buckets and the exact percentage, while — as
`docs/SECURITY.md` documents by printing `result._original_description`,
`result._original_value_base`, `result._original_value_compare` and
`result._account_code` — the original values are retained on the object
in underscore-prefixed fields that are kept local, not sent. -/
def anonymize (description account_code : String)
    (value_base value_compare variation_pct : ℚ) : AnonymizedFact :=
  ⟨(categorize_account account_code).1,
   (categorize_account account_code).2,
   variation_direction_of variation_pct,
   variation_magnitude_of variation_pct,
   variation_pct,
   value_range_of value_base value_compare,
   priority_suggested_of variation_pct,
   description, value_base, value_compare, account_code⟩

/-- Projection of an AnonymizedFact onto the fields that leave the system
(the prompt data of `docs/SECURITY.md` / `docs/README.md`). -/
def publicPart (f : AnonymizedFact) : String × String × String × String × ℚ × String × String :=
  (f.category_generic, f.account_type, f.variation_direction,
   f.variation_magnitude, f.variation_percentage, f.value_range,
   f.priority_suggested)

/-- Caller-supplied focus sets forcing inclusion (spec section 4.4). -/
structure FocusConfig where
  focus_accounts : List String
  focus_period_pairs : List (String × String)
deriving DecidableEq, Repr

/-- Tag recording why an item entered the report. -/
inductive InclusionTag where
  | material
  | forced
deriving DecidableEq, Repr

/-- Modelled from the spec: the focus implementation is not in the
repository; part_008 documents it ("Permite forzar la generación de
preguntas para cuentas o periodos específicos definidos por el usuario,
ignorando los umbrales de materialidad"). A row matching the focus
account set or period-pair set is included tagged forced regardless of
materiality; otherwise inclusion requires materiality. -/
def include_item (cfg : MaterialityConfig) (focus : FocusConfig)
    (it : VariationItem) (pair : String × String) : Option InclusionTag :=
  if it.account_code ∈ focus.focus_accounts ∨ pair ∈ focus.focus_period_pairs then
    some InclusionTag.forced
  else if is_material cfg it then some InclusionTag.material
  else none

/-- Failure of the optional external text generator. -/
inductive GenError where
  | timeout
  | apiError
deriving DecidableEq, Repr

/-- AI settings documented in part_008 (`src/config/settings.py`). -/
structure AISettings where
  temperature : ℚ
  default_model : String
  auto_fallback : Bool
deriving DecidableEq, Repr

/-- Defaults of part_008: temperature 0.7, model llama3.2, auto_fallback
true ("Usar reglas si IA falla"). -/
def defaultAISettings : AISettings := ⟨7 / 10, "llama3.2", true⟩

/-- Modelled from the spec: `src/ai/ai_service.py` is not in the
repository; part_008 documents the fallback methods
(`_generate_simple_question_from_context`,
`_generate_simple_reason_from_context`) and the `auto_fallback` setting.
A failing external generator is replaced by the deterministic template
output when auto_fallback is set, so the item is never omitted. -/
def generate_item_text {α : Type} (s : AISettings)
    (external : α → Except GenError (String × String))
    (template : α → String × String) (fact : α) :
    Except GenError (String × String) :=
  match external fact with
  | Except.ok qr => Except.ok qr
  | Except.error e =>
      if s.auto_fallback then Except.ok (template fact) else Except.error e

/-- Report item as handled by the audit view (frontend): editable fields
status, response and follow_up next to the generated content. -/
structure QAItem where
  account_code : String
  question : String
  reason : String
  priority : String
  status : String
  response : String
  follow_up : String
  values : List (String × ℚ)
deriving DecidableEq, Repr

/-- Patch returned by `updateReportItem` for an edited item. Modelled from
the spec: `frontend/lib/api.ts` is not in the repository; the call in
`saveItem` sends exactly status, response and follow_up, which the server
echoes back. -/
structure ItemPatch where
  status : String
  response : String
  follow_up : String
deriving DecidableEq, Repr

/-- Merge of a patch into one item, as the object spread in `saveItem`
does: the patched fields replace the old ones, everything else is kept. -/
def patchItem (p : ItemPatch) (it : QAItem) : QAItem :=
  ⟨it.account_code, it.question, it.reason, it.priority,
   p.status, p.response, p.follow_up, it.values⟩

/-- Embedding of the `setReport` update in `saveItem` (audit view): every
item whose account_code equals the edited account code is merged with the
patch, all other items are kept unchanged. -/
def saveItemUpdate (items : List QAItem) (accountCode : String)
    (updated : ItemPatch) : List QAItem :=
  items.map (fun it =>
    if it.account_code = accountCode then patchItem updated it else it)

/-- Concrete month plan for the C1 counterexample: 2024 complete, 2025
with March as its only available month. -/
def mcEx : Nat → List Nat := fun y =>
  if y = 2024 then [1, 2, 3, 4, 5, 6, 7, 8, 9, 10, 11, 12]
  else if y = 2025 then [3] else []

/-- Concrete row for the C1 counterexample: January 2024 is 10, March
2024 is 99, everything else 0. -/
def rowEx : Nat × Nat → ℚ := fun p =>
  if p = (2024, 1) then 10 else if p = (2024, 3) then 99 else 0

/-- Concrete month plan for the C1 witness: 2024 has months 1..3, 2025
has months 1..2 (an initial segment of 2024's). -/
def mcW : Nat → List Nat := fun y =>
  if y = 2024 then [1, 2, 3] else if y = 2025 then [1, 2] else []

/-- Concrete row for the C1 witness. -/
def rowW : Nat × Nat → ℚ := fun p =>
  if p = (2024, 1) then 5 else if p = (2024, 2) then 7 else 1

/-- Columns for the C6 counterexample: year 2023 with 11 distinct months,
January duplicated, i.e. 12 month columns. -/
def dupColsEx : List (Nat × Nat) :=
  [(2023, 1), (2023, 1), (2023, 2), (2023, 3), (2023, 4), (2023, 5),
   (2023, 6), (2023, 7), (2023, 8), (2023, 9), (2023, 10), (2023, 11)]

/-- Columns for the C6 witness: year 2023 complete, year 2024 with one
month. -/
def colsW : List (Nat × Nat) :=
  [(2023, 1), (2023, 2), (2023, 3), (2023, 4), (2023, 5), (2023, 6),
   (2023, 7), (2023, 8), (2023, 9), (2023, 10), (2023, 11), (2023, 12),
   (2024, 1)]

/-- Immaterial focus item for the C7 witness: account 7000001 with a 2
percent variation. -/
def focusItemW : VariationItem := ⟨"7000001", 1000000, 1020000, 20000, 2⟩

/-- Two report items sharing account code 100 and one with account code
200, for the C10 witness. -/
def itemsW : List QAItem :=
  [⟨"100", "q1", "r1", "Alta", "Abierto", "", "", []⟩,
   ⟨"200", "q2", "r2", "Media", "Abierto", "", "", []⟩,
   ⟨"100", "q3", "r3", "Baja", "En proceso", "old", "", []⟩]

/-- Patch for the C10 witness. -/
def patchW : ItemPatch := ⟨"Cerrado", "done", "none"⟩

/-- C3: for numeric operands the Variation Calculator returns 0 when both
values are zero, the sentinel 100 or -100 when only the base is zero, and
`(compare - base) / |base| * 100` otherwise; consequently for every
negative base and any compared value above it the percentage variation is
positive. -/
theorem C3_thm (b c : ℚ) :
    ((b = 0 ∧ c = 0) → (calculate_variation b c).2 = 0) ∧
    ((b = 0 ∧ 0 < c) → (calculate_variation b c).2 = 100) ∧
    ((b = 0 ∧ c < 0) → (calculate_variation b c).2 = -100) ∧
    (b ≠ 0 → (calculate_variation b c).2 = (c - b) / |b| * 100) ∧
    (b < 0 → b < c → 0 < (calculate_variation b c).2) := by
  refine ⟨?_, ?_, ?_, ?_, ?_⟩
  · rintro ⟨hb, hc⟩
    simp [calculate_variation, hb, hc]
  · rintro ⟨hb, hc⟩
    simp [calculate_variation, hb, hc.ne', hc]
  · rintro ⟨hb, hc⟩
    simp [calculate_variation, hb, hc.ne, hc, not_lt.mpr hc.le]
  · intro hb
    simp [calculate_variation, hb]
  · intro hb hbc
    have hb0 : b ≠ 0 := ne_of_lt hb
    have hnum : 0 < c - b := sub_pos.mpr hbc
    have hres : (calculate_variation b c).2 = (c - b) / |b| * 100 := by
      simp [calculate_variation, hb0]
    rw [hres]
    have habs : 0 < |b| := abs_pos.mpr hb0
    positivity

/-- Closed instance of `C3_thm` at base -100, compare -50. -/
theorem C3_witness :
    ((-100 : ℚ) ≠ 0 ∧ (-100 : ℚ) < 0 ∧ (-100 : ℚ) < -50) ∧
    (calculate_variation (-100) (-50)).2 = ((-50 : ℚ) - (-100)) / |(-100 : ℚ)| * 100 ∧
    0 < (calculate_variation (-100) (-50)).2 := by
  refine ⟨by norm_num, ?_, ?_⟩
  · exact (C3_thm (-100) (-50)).2.2.2.1 (by norm_num)
  · exact (C3_thm (-100) (-50)).2.2.2.2 (by norm_num) (by norm_num)

/-- C4: an item is material exactly when all three gates pass — percentage
variation, absolute variation and minimum account value — and the
documented fallback thresholds are 10, 50000 and 100000; the decision
depends on nothing else. -/
theorem C4_thm (cfg : MaterialityConfig) (it : VariationItem) :
    (is_material cfg it = true ↔
      (|it.variation_pct| ≥ cfg.threshold_pct ∧
       |it.variation_abs| ≥ cfg.threshold_abs ∧
       max |it.value_base| |it.value_compare| ≥ cfg.min_value)) ∧
    defaultMaterialityConfig.threshold_pct = 10 ∧
    defaultMaterialityConfig.threshold_abs = 50000 ∧
    defaultMaterialityConfig.min_value = 100000 := by
  refine ⟨?_, rfl, rfl, rfl⟩
  simp [is_material, and_assoc]

/-- Closed instance of `C4_thm`: the default-threshold gates passed at
base 100000, compare 150000 make the item material. -/
theorem C4_witness :
    is_material defaultMaterialityConfig ⟨"7000001", 100000, 150000, 50000, 50⟩ = true :=
  (C4_thm defaultMaterialityConfig ⟨"7000001", 100000, 150000, 50000, 50⟩).1.mpr
    (by norm_num [defaultMaterialityConfig])

/-- C1 counterexample: with 2025 having March as its only available month
and 2024 complete, the source's positional slice sums January 2024 (value
10), while the same-calendar-month selection the claim states would sum
March 2024 (value 99); no unavailability marking exists in the source. -/
theorem C1_counterexample :
    ytd_prev_value mcEx rowEx 2025 = 10 ∧
    ytd_prev_value_spec mcEx rowEx 2025 = some 99 ∧
    (10 : ℚ) ≠ 99 := by
  refine ⟨by norm_num [ytd_prev_value, mcEx, rowEx],
          by norm_num [ytd_prev_value_spec, mcEx, rowEx], by norm_num⟩

/-- C1 (amended): the derived prior-year YTD column sums the first N month
columns of year Y-1 by position; this coincides with the same-calendar-
month sum exactly when year Y's months form an initial segment of year
Y-1's month list, and when year Y-1 has at most N months the column is
computed over all of its months (never marked unavailable). -/
theorem C1_thm (mc : Nat → List Nat) (row : Nat × Nat → ℚ) (y : Nat) :
    (mc y = (mc (y - 1)).take (mc y).length →
      ytd_prev_value mc row y = ((mc y).map (fun m => row (y - 1, m))).sum) ∧
    ((mc (y - 1)).length ≤ (mc y).length →
      ytd_prev_value mc row y = ((mc (y - 1)).map (fun m => row (y - 1, m))).sum) := by
  constructor
  · intro h
    unfold ytd_prev_value
    rw [← h]
  · intro h
    unfold ytd_prev_value
    rw [List.take_of_length_le h]

/-- Closed instance of `C1_thm`: 2025's months 1..2 are an initial
segment of 2024's months 1..3, so the derived column equals the aligned
sum 5 + 7. -/
theorem C1_witness :
    (mcW 2025 = (mcW (2025 - 1)).take (mcW 2025).length) ∧
    ytd_prev_value mcW rowW 2025 = ((mcW 2025).map (fun m => rowW (2025 - 1, m))).sum ∧
    ytd_prev_value mcW rowW 2025 = 12 := by
  refine ⟨by decide, (C1_thm mcW rowW 2025).1 (by decide),
          by norm_num [ytd_prev_value, mcW, rowW]⟩

/-- C5: priority is Alta when the percentage variation reaches twice the
threshold or a sign anomaly or a new/disappeared account is detected,
Media when it only reaches the threshold, Baja otherwise. -/
theorem C5_thm (t : ℚ) (is_asset : Bool) (b c pct : ℚ) :
    ((2 * t ≤ |pct| ∨ sign_anomaly is_asset c = true ∨
        new_or_disappeared b c = true) →
      assign_priority t is_asset b c pct = Priority.alta) ∧
    (¬(2 * t ≤ |pct| ∨ sign_anomaly is_asset c = true ∨
        new_or_disappeared b c = true) →
      t ≤ |pct| → assign_priority t is_asset b c pct = Priority.media) ∧
    (¬(2 * t ≤ |pct| ∨ sign_anomaly is_asset c = true ∨
        new_or_disappeared b c = true) →
      ¬(t ≤ |pct|) → assign_priority t is_asset b c pct = Priority.baja) := by
  refine ⟨?_, ?_, ?_⟩
  · intro h
    simp only [assign_priority, if_pos h]
  · intro h hm
    simp only [assign_priority, if_neg h, if_pos hm]
  · intro h hm
    simp only [assign_priority, if_neg h, if_neg hm]

/-- Closed instance of `C5_thm`: base 100000 and compare 150000 give
variation_abs 50000 and variation_pct 50, which with threshold 10 is
Alta; and an asset-type account with compare -20000 is Alta even at a 4
percent variation. -/
theorem C5_witness :
    calculate_variation 100000 150000 = (50000, 50) ∧
    assign_priority 10 false 100000 150000 50 = Priority.alta ∧
    (|(-4 : ℚ)| < 10 ∧ sign_anomaly true (-20000) = true) ∧
    assign_priority 10 true 100000 (-20000) (-4) = Priority.alta := by
  refine ⟨by norm_num [calculate_variation, abs_of_pos], ?_,
          ⟨by norm_num, by simp [sign_anomaly]⟩, ?_⟩
  · exact (C5_thm 10 false 100000 150000 50).1 (Or.inl (by norm_num))
  · exact (C5_thm 10 true 100000 (-20000) (-4)).1
      (Or.inr (Or.inl (by simp [sign_anomaly])))

/-- C6 counterexample: twelve month columns for 2023 where January is
duplicated (11 distinct months) make the detector classify 2023 as
complete and raise nothing, against the claim's 12-distinct-months
condition and AmbiguousPeriodError. -/
theorem C6_counterexample :
    (month_columns dupColsEx 2023).dedup.length = 11 ∧
    2023 ∈ (detect_fiscal_periods dupColsEx).fiscal_years ∧
    2023 ∉ (detect_fiscal_periods dupColsEx).incomplete_years := by
  refine ⟨by decide, by decide, by decide⟩

/-- C6 (amended): a detected year is classified complete exactly when it
has 12 month columns counted with multiplicity, and incomplete exactly
when its column count differs from 12; duplicate months are counted like
distinct ones and the detection never fails. -/
theorem C6_thm (cols : List (Nat × Nat)) (y : Nat) :
    (y ∈ (detect_fiscal_periods cols).fiscal_years ↔
      (y ∈ cols.map Prod.fst ∧ (month_columns cols y).length = 12)) ∧
    (y ∈ (detect_fiscal_periods cols).incomplete_years ↔
      (y ∈ cols.map Prod.fst ∧ (month_columns cols y).length ≠ 12)) := by
  constructor
  · rw [show (detect_fiscal_periods cols).fiscal_years =
        (((cols.map Prod.fst).dedup.filter
          (fun y => (month_columns cols y).length == 12)).insertionSort
            (fun a b => a ≤ b)) from rfl]
    rw [(List.perm_insertionSort (fun a b => a ≤ b) _).mem_iff]
    simp [List.mem_filter]
  · rw [show (detect_fiscal_periods cols).incomplete_years =
        ((cols.map Prod.fst).dedup.filter
          (fun y => (month_columns cols y).length != 12)) from rfl]
    simp [List.mem_filter]

/-- Closed instance of `C6_thm`: 2023 with its 12 columns is complete
and 2024 with one column is incomplete. -/
theorem C6_witness :
    2023 ∈ (detect_fiscal_periods colsW).fiscal_years ∧
    2024 ∈ (detect_fiscal_periods colsW).incomplete_years := by
  exact ⟨(C6_thm colsW 2023).1.mpr (by decide),
         (C6_thm colsW 2024).2.mpr (by decide)⟩

/-- C7: an item whose account code is in the focus account set, or whose
period pair is in the focus period-pair set, is always included in the
output tagged forced, whatever the thresholds say. -/
theorem C7_thm (cfg : MaterialityConfig) (focus : FocusConfig)
    (it : VariationItem) (pair : String × String) :
    (it.account_code ∈ focus.focus_accounts ∨ pair ∈ focus.focus_period_pairs) →
      include_item cfg focus it pair = some InclusionTag.forced := by
  intro h
  simp only [include_item, if_pos h]

/-- Closed instance of `C7_thm`: account 7000001 with a 2 percent
variation is immaterial under the default thresholds yet is included and
tagged forced. -/
theorem C7_witness :
    is_material defaultMaterialityConfig focusItemW = false ∧
    include_item defaultMaterialityConfig ⟨["7000001"], []⟩ focusItemW
      ("FY23", "FY24") = some InclusionTag.forced := by
  refine ⟨by norm_num [is_material, focusItemW, defaultMaterialityConfig], ?_⟩
  exact C7_thm defaultMaterialityConfig ⟨["7000001"], []⟩ focusItemW
    ("FY23", "FY24") (Or.inl (by simp [focusItemW]))

/-- C8: an absent/NaN operand makes the variation not computable — it is
never replaced by zero — and such an item is excluded from materiality
evaluation; both functions are total, so no exception is surfaced. -/
theorem C8_thm (cfg : MaterialityConfig) (code : String) (v : Option ℚ) :
    calculate_variation_checked none v = VariationOutcome.notComputable ∧
    calculate_variation_checked v none = VariationOutcome.notComputable ∧
    (∀ a p, calculate_variation_checked none v ≠ VariationOutcome.computed a p) ∧
    evaluate_materiality cfg code none v = false ∧
    evaluate_materiality cfg code v none = false := by
  cases v with
  | none =>
    exact ⟨rfl, rfl, fun a p h => VariationOutcome.noConfusion h, rfl, rfl⟩
  | some q =>
    exact ⟨rfl, rfl, fun a p h => VariationOutcome.noConfusion h, rfl, rfl⟩

/-- Closed instance of `C8_thm` at a missing base and compare 80000. -/
theorem C8_witness :
    calculate_variation_checked none (some 80000) = VariationOutcome.notComputable ∧
    evaluate_materiality defaultMaterialityConfig "7000001" none (some 80000) = false := by
  exact ⟨(C8_thm defaultMaterialityConfig "7000001" (some 80000)).1,
         (C8_thm defaultMaterialityConfig "7000001" (some 80000)).2.2.2.1⟩

/-- C9: with the default settings (auto_fallback true), when the external
generator fails the engine returns the deterministic template output for
the item — the item is never omitted and the failure is never propagated
to the caller. -/
theorem C9_thm {α : Type} (external : α → Except GenError (String × String))
    (template : α → String × String) (fact : α) (e : GenError) :
    defaultAISettings.auto_fallback = true ∧
    (external fact = Except.error e →
      generate_item_text defaultAISettings external template fact =
        Except.ok (template fact)) := by
  refine ⟨rfl, ?_⟩
  intro h
  simp [generate_item_text, h, defaultAISettings]

/-- Closed instance of `C9_thm`: an always-failing external generator
still yields the template's question and reason. -/
theorem C9_witness :
    generate_item_text defaultAISettings
      (fun _ : Nat => (Except.error GenError.timeout : Except GenError (String × String)))
      (fun _ => ("q", "r")) 0 = Except.ok ("q", "r") := by
  exact (C9_thm (fun _ : Nat => Except.error GenError.timeout)
    (fun _ => ("q", "r")) 0 GenError.timeout).2 rfl

/-- C10: the save operation patches status, response and follow_up on
every item whose account code equals the edited one — leaving their
question, reason, priority and values untouched — and leaves every item
with a different account code fully unchanged. -/
theorem C10_thm (items : List QAItem) (accountCode : String)
    (updated : ItemPatch) :
    (saveItemUpdate items accountCode updated).length = items.length ∧
    List.Forall₂ (fun old upd =>
      (old.account_code = accountCode →
        upd.status = updated.status ∧ upd.response = updated.response ∧
        upd.follow_up = updated.follow_up ∧
        upd.account_code = old.account_code ∧ upd.question = old.question ∧
        upd.reason = old.reason ∧ upd.priority = old.priority ∧
        upd.values = old.values) ∧
      (old.account_code ≠ accountCode → upd = old))
      items (saveItemUpdate items accountCode updated) := by
  constructor
  · simp [saveItemUpdate]
  · induction items with
    | nil => simp [saveItemUpdate]
    | cons hd tl ih =>
      refine List.Forall₂.cons ?_ ih
      by_cases h : hd.account_code = accountCode <;>
        simp [patchItem, h]

/-- Closed instance of `C10_thm`: saving account 100 patches both
items with that code and leaves account 200 unchanged. -/
theorem C10_witness :
    List.Forall₂ (fun old upd =>
      (old.account_code = "100" →
        upd.status = patchW.status ∧ upd.response = patchW.response ∧
        upd.follow_up = patchW.follow_up ∧
        upd.account_code = old.account_code ∧ upd.question = old.question ∧
        upd.reason = old.reason ∧ upd.priority = old.priority ∧
        upd.values = old.values) ∧
      (old.account_code ≠ "100" → upd = old))
      itemsW (saveItemUpdate itemsW "100" patchW) :=
  (C10_thm itemsW "100" patchW).2

/-- C2 counterexample: at the diagnostic input of docs/SECURITY.md the
anonymized object retains, in its underscore-prefixed fields, values
equal to the original account code, description and raw amounts, so
reading _account_code recovers the original account code from the
object. -/
theorem C2_counterexample :
    (anonymize "Tu descripcion de prueba" "7000001" 1000000 500000 (-50))._account_code
      = "7000001" ∧
    (anonymize "Tu descripcion de prueba" "7000001" 1000000 500000 (-50))._original_description
      = "Tu descripcion de prueba" ∧
    (anonymize "Tu descripcion de prueba" "7000001" 1000000 500000 (-50))._original_value_base
      = 1000000 ∧
    (anonymize "Tu descripcion de prueba" "7000001" 1000000 500000 (-50))._original_value_compare
      = 500000 :=
  ⟨rfl, rfl, rfl, rfl⟩

/-- C2 (amended): the fields that leave the system — the public
projection — never copy the account code, the description or the raw
amounts: they are identical for any two inputs that agree on the
account-code class (leading character), the direction, the buckets and
the percentage, and their only numeric field is the exact percentage; the
object however retains the original description, amounts and account code
in underscore-prefixed local fields, so recovering the account code from
the whole object is possible. -/
theorem C2_thm (d₁ c₁ d₂ c₂ : String) (b v p : ℚ) :
    c₁.front = c₂.front →
      (publicPart (anonymize d₁ c₁ b v p) = publicPart (anonymize d₂ c₂ b v p) ∧
       (anonymize d₁ c₁ b v p).variation_percentage = p ∧
       (anonymize d₁ c₁ b v p)._account_code = c₁ ∧
       (anonymize d₁ c₁ b v p)._original_description = d₁) := by
  intro h
  refine ⟨?_, rfl, rfl, rfl⟩
  simp [publicPart, anonymize, categorize_account, h]

/-- Closed instance of `C2_thm`: two different income accounts with
different descriptions produce the same public projection. -/
theorem C2_witness :
    ("7000012345" : String).front = ("7999999" : String).front ∧
    publicPart (anonymize "Ventas a Iberdrola" "7000012345" 5247892 3148735 (-40)) =
      publicPart (anonymize "otra cuenta" "7999999" 5247892 3148735 (-40)) :=
  ⟨rfl, (C2_thm "Ventas a Iberdrola" "7000012345" "otra cuenta" "7999999"
    5247892 3148735 (-40) rfl).1⟩
